import Mathlib

/-!
Verification of the credential lifecycle and API-access core of the
`mcp-apple-music` repository, shallowly embedded in Lean 4.

The embedding follows the Python sources:

* `src/mcp_apple_music/client.py`  — the authenticated API client and the
  bounded pagination helper `AppleMusicClient.get_all_pages`;
* `src/mcp_apple_music/setup.py`   — the one-time setup wizard: the local
  handshake HTTP server (`_Handler`), config persistence (`_save_config`),
  and developer-token generation (`_generate_developer_token`);
* `src/mcp_apple_music/server.py`  — the MCP tool layer (limit clamping and
  the `add_tracks_to_playlist` tool).

Effectful Python code is modelled by explicit state passing: the handshake
handler threads a session state (the `_received_token` list plus the
`_token_event` flag), file-system operations thread a small file-system
state, and outbound HTTP is modelled by a server oracle mapping request
parameters to responses.  The file is laid out as definitions first,
theorems second.
-/

namespace AppleMusic

/-! ## Definitions

### Pagination model — `client.py`, `AppleMusicClient.get_all_pages`

A paginated endpoint responds to a `(limit, offset)` query with a page:
the `data` array of items and the optional `next` continuation URL.  The
server is modelled as a pure oracle from the query parameters to the page,
items being drawn from an arbitrary type `α`. -/

/-- One page of a paginated response: the `data` list and the `next` field
(`none` when the key is absent). -/
structure Page (α : Type) where
  data : List α
  next : Option String

/-- Python truthiness of the `next` field: `if not next_url` is taken when
`next` is absent (`None`) or the empty string. -/
def Page.hasNext {α : Type} (p : Page α) : Bool :=
  match p.next with
  | none => false
  | some s => !s.isEmpty

/-- `PAGE_SIZE` — the fixed `page_size = 100` of `get_all_pages`. -/
def PAGE_SIZE : Nat := 100

/-- The `while` loop of `get_all_pages` (client.py lines 99-109), with the
accumulator `results` and the running `offset` made explicit.  `server` is
the oracle answering each `self.get(path, {limit, offset})` call.  Returns
the final accumulator together with the number of requests issued.

Termination: each iteration that recurses has appended a non-empty `items`
to `results` while `results.length < max_items` held on entry, so
`max_items - results.length` strictly decreases. -/
def getAllPagesLoop {α : Type} (server : Nat → Nat → Page α) (max_items : Nat)
    (results : List α) (offset : Nat) : List α × Nat :=
  if h : results.length < max_items then
    let data := server PAGE_SIZE offset
    let items := data.data
    let results' := results ++ items
    if data.hasNext = false ∨ items.isEmpty = true then
      (results', 1)
    else
      let rest := getAllPagesLoop server max_items results' (offset + items.length)
      (rest.1, rest.2 + 1)
  else
    (results, 0)
termination_by max_items - results.length
decreasing_by
  rename_i hcond
  have hpos : 0 < (server PAGE_SIZE offset).data.length := by
    rcases Nat.eq_zero_or_pos (server PAGE_SIZE offset).data.length with hz | hp
    · exact absurd (Or.inr (by simpa [List.isEmpty_iff_length_eq_zero] using hz))
        hcond
    · exact hp
  simp only [List.length_append]
  omega

/-- `get_all_pages(path, params, max_items, user_auth)` (client.py lines
87-111): run the loop from an empty accumulator and offset 0, then return
`results[:max_items]`. -/
def get_all_pages {α : Type} (server : Nat → Nat → Page α) (max_items : Nat) : List α :=
  (getAllPagesLoop server max_items [] 0).1.take max_items

/-- Number of `self.get` requests issued by a `get_all_pages` call. -/
def get_all_pages_requests {α : Type} (server : Nat → Nat → Page α) (max_items : Nat) : Nat :=
  (getAllPagesLoop server max_items [] 0).2

/-- A server whose pages honour the requested page size: every response to a
`limit = PAGE_SIZE` request carries either a full page of `PAGE_SIZE` items or
no items at all (continuation indicators are unconstrained, so the server may
keep signalling "more data" while returning empty pages). -/
def HonestPageSizes {α : Type} (server : Nat → Nat → Page α) : Prop :=
  ∀ offset, (server PAGE_SIZE offset).data.length = PAGE_SIZE ∨
    (server PAGE_SIZE offset).data = []

/-- An adversarial-but-honest server: every page is full and every page
claims a continuation. -/
def constFullServer : Nat → Nat → Page Nat :=
  fun limit _offset => { data := List.replicate limit 0, next := some "more" }

/-- The scenario named by the spec for the request bound: every response
carries a continuation indicator, and from some offset on the server
returns only empty pages. -/
def AlwaysNextEventuallyEmpty {α : Type} (server : Nat → Nat → Page α) : Prop :=
  (∀ limit offset, (server limit offset).hasNext = true) ∧
  ∃ N, ∀ offset, N ≤ offset → (server PAGE_SIZE offset).data = []

/-- A server satisfying that scenario while returning short pages: one item
per page (with a continuation indicator) for the first ten offsets, and
empty pages (still with a continuation indicator) afterwards. -/
def onesServer : Nat → Nat → Page Nat :=
  fun _limit offset =>
    if offset < 10 then ⟨[0], some "x"⟩ else ⟨[], some "x"⟩

/-! ### Handshake server model — `setup.py`, `_Handler` and the `main` flow

The `_HTML` page template of setup.py (lines 34-130) contains the
`{{DEVELOPER_TOKEN}}` placeholder exactly once, inside the
`MusicKit.configure` call.  It is embedded here split at that placeholder;
curly braces, apostrophes and backslashes of the source text appear as
escape sequences. -/

/-- The text of `_HTML` strictly before the `{{DEVELOPER_TOKEN}}`
placeholder. -/
def HTML_PREFIX : String :=
  "<!DOCTYPE html>\n<html lang=\"en\">\n<head>\n  <meta charset=\"UTF-8\">\n  <title>Apple Music MCP — " ++
  "Setup</title>\n  <script src=\"https://js-cdn.music.apple.com/musickit/v3/musickit.js\"\n          d" ++
  "ata-web-components async></script>\n  <style>\n    * \x7b box-sizing: border-box; \x7d\n    body \x7b" ++
  "\n      font-family: -apple-system, BlinkMacSystemFont, \"Segoe UI\", sans-serif;\n      background:" ++
  " #f5f5f7;\n      display: flex; justify-content: center; align-items: center;\n      min-height: 100" ++
  "vh; margin: 0; padding: 20px;\n    \x7d\n    .card \x7b\n      background: white; border-radius: 18p" ++
  "x; padding: 48px 40px;\n      max-width: 480px; width: 100%; text-align: center;\n      box-shadow: " ++
  "0 4px 30px rgba(0,0,0,0.08);\n    \x7d\n    .logo \x7b font-size: 56px; margin-bottom: 16px; \x7d\n " ++
  "   h1 \x7b font-size: 22px; font-weight: 600; margin: 0 0 8px; \x7d\n    p  \x7b color: #6e6e73; fon" ++
  "t-size: 15px; line-height: 1.5; margin: 0 0 32px; \x7d\n    button \x7b\n      background: #fc3c44; " ++
  "color: white; border: none;\n      padding: 14px 32px; border-radius: 980px;\n      font-size: 16px;" ++
  " font-weight: 500; cursor: pointer;\n      transition: background .2s;\n    \x7d\n    button:hover:n" ++
  "ot(:disabled) \x7b background: #d92e35; \x7d\n    button:disabled \x7b background: #c7c7cc; cursor: " ++
  "default; \x7d\n    #status \x7b\n      margin-top: 24px; font-size: 14px; color: #6e6e73; min-height" ++
  ": 20px;\n    \x7d\n    .ok   \x7b color: #34c759 !important; font-weight: 600; \x7d\n    .err  \x7b " ++
  "color: #ff3b30 !important; \x7d\n  </style>\n</head>\n<body>\n  <div class=\"card\">\n    <div class" ++
  "=\"logo\">🎵</div>\n    <h1>Apple Music MCP</h1>\n    <p>Click the button below to authorise Claude t" ++
  "o access your Apple Music library.</p>\n    <button id=\"btn\">Authorise Apple Music</button>\n    <" ++
  "div id=\"status\">Waiting…</div>\n  </div>\n\n  <script>\n    document.addEventListener(\x27musickit" ++
  "loaded\x27, async () => \x7b\n      try \x7b\n        await MusicKit.configure(\x7b\n          devel" ++
  "operToken: \x27"

/-- The text of `_HTML` strictly after the `{{DEVELOPER_TOKEN}}`
placeholder. -/
def HTML_SUFFIX : String :=
  "\x27,\n          app: \x7b name: \x27MCP Apple Music\x27, build: \x271.0.0\x27 \x7d\n        \x7d);\n" ++
  "        document.getElementById(\x27status\x27).textContent = \x27Ready — click the button to contin" ++
  "ue.\x27;\n      \x7d catch (e) \x7b\n        document.getElementById(\x27status\x27).textContent = \x27" ++
  "Error configuring MusicKit: \x27 + e.message;\n        document.getElementById(\x27status\x27).class" ++
  "Name = \x27err\x27;\n        document.getElementById(\x27btn\x27).disabled = true;\n      \x7d\n    " ++
  "\x7d);\n\n    document.getElementById(\x27btn\x27).addEventListener(\x27click\x27, async () => \x7b\n" ++
  "      const btn    = document.getElementById(\x27btn\x27);\n      const status = document.getElement" ++
  "ById(\x27status\x27);\n      btn.disabled = true;\n      status.textContent = \x27Authorising… (sign" ++
  " in with your Apple ID if prompted)\x27;\n      status.className   = \x27\x27;\n\n      try \x7b\n  " ++
  "      const music     = MusicKit.getInstance();\n        const userToken = await music.authorize();\n" ++
  "\n        status.textContent = \x27Saving token…\x27;\n        const res = await fetch(\x27/save_tok" ++
  "en\x27, \x7b\n          method:  \x27POST\x27,\n          headers: \x7b \x27Content-Type\x27: \x27ap" ++
  "plication/json\x27 \x7d,\n          body:    JSON.stringify(\x7b token: userToken \x7d)\n        \x7d" ++
  ");\n\n        if (res.ok) \x7b\n          status.textContent = \x27✅  All done! You can close this t" ++
  "ab and return to the terminal.\x27;\n          status.className   = \x27ok\x27;\n        \x7d else \x7b" ++
  "\n          throw new Error(\x27Server responded with \x27 + res.status);\n        \x7d\n      \x7d " ++
  "catch (e) \x7b\n        status.textContent = \x27Error: \x27 + e.message;\n        status.className " ++
  "  = \x27err\x27;\n        btn.disabled       = false;\n      \x7d\n    \x7d);\n  </script>\n</body>\n" ++
  "</html>\n"

/-- The whole `_HTML` template (setup.py lines 34-130). -/
def HTML_TEMPLATE : String :=
  HTML_PREFIX ++ "\x7b\x7bDEVELOPER_TOKEN\x7d\x7d" ++ HTML_SUFFIX

/-- `_HTML.replace("{{DEVELOPER_TOKEN}}", developer_token)` (setup.py line
257), the page installed on the handler class before the server starts.
Since the placeholder occurs exactly once in the template, the replacement
is the prefix, the token, and the suffix concatenated. -/
def renderAuthPage (developer_token : String) : String :=
  HTML_PREFIX ++ developer_token ++ HTML_SUFFIX

/-- Python `str.isascii` for one character. -/
def isAsciiChar (c : Char) : Bool := c.toNat < 128

/-- The scheme characters of `urllib.parse` (`scheme_chars`): ASCII
letters, digits, `+`, `-`, `.`. -/
def isSchemeChar (c : Char) : Bool :=
  c.isAlpha || c.isDigit || c == '+' || c == '-' || c == '.'

/-- `uses_params` of `urllib.parse`: the schemes whose paths carry
`;parameters`; the empty scheme of origin-form request targets is among
them. -/
def uses_params : List String :=
  ["", "ftp", "hdl", "prospero", "http", "imap",
   "https", "shttp", "rtsp", "rtsps", "rtspu", "sip",
   "sips", "mms", "sftp", "tel"]

/-- The URL preprocessing of `urlsplit`: strip leading C0-control-or-space
characters (code points ≤ 0x20), then remove every tab, CR and LF. -/
def cleanUrl (l : List Char) : List Char :=
  (l.dropWhile (fun c => c.toNat ≤ 32)).filter
    (fun c => c != '\t' && c != '\r' && c != '\n')

/-- The scheme recognition of `urlsplit`: when the target starts with a
non-empty run of scheme characters whose first character is an ASCII
letter, followed by `:`, return the lowercased scheme name and the
remainder after the colon; otherwise the empty scheme and the target
unchanged. -/
def splitScheme (l : List Char) : String × List Char :=
  let pre := l.takeWhile (fun c => c != ':')
  if pre.length < l.length ∧ pre ≠ [] ∧
      (pre.headD '0').isAlpha = true ∧ pre.all isSchemeChar = true then
    (String.mk (pre.map Char.toLower), l.drop (pre.length + 1))
  else
    ("", l)

/-- The delimiters ending an authority component (`_splitnetloc` looks for
the earliest of `/`, `?`, `#`). -/
def isNetlocDelim (c : Char) : Bool := c == '/' || c == '?' || c == '#'

/-- The authority recognition of `urlsplit`: when the (scheme-stripped)
target starts with `//`, split off the netloc up to the first delimiter
and return it with the remainder; otherwise the empty netloc and the
target unchanged. -/
def splitNetloc (l : List Char) : List Char × List Char :=
  match l with
  | '/' :: '/' :: rest =>
    (rest.takeWhile (fun c => !isNetlocDelim c),
     rest.dropWhile (fun c => !isNetlocDelim c))
  | _ => ([], l)

/-- `_splitparams`, applied by `urlparse` when the scheme uses parameters
and the path contains `;`: drop the `;parameters` suffix of the last path
segment (a `;` in an earlier segment is left alone). -/
def splitParams (l : List Char) : List Char :=
  if l.contains '/' then
    let lastSeg := (l.reverse.takeWhile (fun c => c != '/')).reverse
    l.take (l.length - lastSeg.length) ++ lastSeg.takeWhile (fun c => c != ';')
  else
    l.takeWhile (fun c => c != ';')

/-- `urlparse(p).path` for the request targets the handler receives,
following CPython's `urlsplit` plus the params split of `urlparse`:
preprocessing, scheme recognition, authority recognition, fragment removal
(keep before the first `#`), query removal (keep before the first `?`),
then `;params` stripping when the scheme uses parameters.  The
`ValueError` cases of `urlsplit` (authorities with square brackets or
non-ASCII characters) are outside this function's faithful domain; see
`ParsedWithoutError`. -/
def urlparsePath (p : String) : String :=
  let l := cleanUrl p.data
  let sr := splitScheme l
  let nr := splitNetloc sr.2
  let path := (nr.2.takeWhile (fun c => c != '#')).takeWhile (fun c => c != '?')
  if uses_params.contains sr.1 && path.contains ';' then
    String.mk (splitParams path)
  else
    String.mk path

/-- The authority component `urlparse(p).netloc`. -/
def urlparseNetloc (p : String) : List Char :=
  (splitNetloc (splitScheme (cleanUrl p.data)).2).1

/-- Request targets on which CPython's `urlparse` returns rather than
raising `ValueError`, uniformly across supported versions: the authority
component is all-ASCII and bracket-free (`_checknetloc` returns early on
ASCII netlocs, and the IPv6/bracketed-host checks need a bracket).  On a
target outside this set the handler can die with an uncaught exception
instead of writing a response, so the routing theorems are stated within
it. -/
abbrev ParsedWithoutError (p : String) : Prop :=
  (urlparseNetloc p).all (fun c => isAsciiChar c && c != '[' && c != ']') = true

/-- An HTTP response written by the handshake handler: status line,
optional `Content-Type` header, body bytes. -/
structure HttpResponse where
  status : Nat
  contentType : Option String
  body : String
  deriving DecidableEq

/-- The two module-level cells shared between the handler thread and the
waiting main flow (setup.py lines 136-137): `_received_token`, a Python
list that `do_POST` appends to, and `_token_event`, the completion
signal. -/
structure SessionState where
  receivedToken : List String
  tokenEvent : Bool
  deriving DecidableEq

/-- The state at server start: `_received_token = []` and the event not
set. -/
def initialSession : SessionState :=
  { receivedToken := [], tokenEvent := false }

/-- `_Handler.do_GET` (setup.py lines 145-155): at parsed path
`urlparse(self.path).path == "/"`, respond 200 with the configured `html`
page; at any other parsed path, respond 404 with an empty body.  The model
covers the request targets for which `urlparse` returns (see
`ParsedWithoutError`). -/
def handleGet (html : String) (path : String) : HttpResponse :=
  if urlparsePath path = "/" then
    { status := 200, contentType := some "text/html; charset=utf-8", body := html }
  else
    { status := 404, contentType := none, body := "" }

/-- `_Handler.do_POST` (setup.py lines 157-171): at parsed path
`/save_token`, append the `"token"` field of the JSON request body to
`_received_token`, respond 200 with `{"ok":true}`, and set `_token_event`;
at any other parsed path, respond 404 and leave the shared state
unchanged.  `tokenField` is the string under the `"token"` key of the
request body; the model covers the request targets for which `urlparse`
returns (see `ParsedWithoutError`). -/
def handlePost (st : SessionState) (path : String) (tokenField : String) :
    SessionState × HttpResponse :=
  if urlparsePath path = "/save_token" then
    ({ receivedToken := st.receivedToken ++ [tokenField], tokenEvent := true },
     { status := 200, contentType := some "application/json",
       body := "\x7b\"ok\":true\x7d" })
  else
    (st, { status := 404, contentType := none, body := "" })

/-- What the orchestrating flow observes for the session. -/
inductive SessionOutcome where
  | tokenReceived (token : String)
  | timedOut
  deriving DecidableEq

/-- The observation made by `main` after `_token_event.wait(timeout=300)`
(setup.py lines 268-276): `granted` is the wait result; with the signal
granted and a non-empty `_received_token`, the first buffered token
`_received_token[0]` is delivered, otherwise the session timed out. -/
def sessionOutcome (granted : Bool) (st : SessionState) : SessionOutcome :=
  if granted = false ∨ st.receivedToken.isEmpty = true then
    .timedOut
  else
    .tokenReceived st.receivedToken.headI

/-! ### Config persistence and token generation — `setup.py` -/

/-- A minimal file-system state: which directories exist, and a map from
file paths to content and permission mode (mode as a plain `Nat`, e.g.
`0o600`). -/
structure FileSystem where
  dirs : String → Bool
  files : String → Option (String × Nat)

/-- `CONFIG_DIR = Path.home() / ".config" / "mcp-apple-music"` (setup.py
line 26); the home prefix is kept symbolic. -/
def CONFIG_DIR : String := "~/.config/mcp-apple-music"

/-- `CONFIG_PATH = CONFIG_DIR / "config.json"` (setup.py line 27). -/
def CONFIG_PATH : String := "~/.config/mcp-apple-music/config.json"

/-- Mode a freshly created file gets from `open(path, "w")`; the concrete
value is irrelevant to the development because `_save_config` always chmods
afterwards. -/
def DEFAULT_FILE_MODE : Nat := 0o644

/-- `CONFIG_DIR.mkdir(parents=True, exist_ok=True)`: mark the directory as
existing (idempotent when it already exists). -/
def mkdirParents (fs : FileSystem) (d : String) : FileSystem :=
  { fs with dirs := fun x => if x = d then true else fs.dirs x }

/-- `open(p, "w")` followed by a full write: replace the content, keeping
the prior mode when the file already existed and the creation default
otherwise. -/
def writeFile (fs : FileSystem) (p : String) (content : String) : FileSystem :=
  { fs with
    files := fun x =>
      if x = p then
        some (content,
          match fs.files p with
          | some pm => pm.2
          | none => DEFAULT_FILE_MODE)
      else fs.files x }

/-- `p.chmod(mode)`: set the permission mode of an existing file. -/
def chmodFile (fs : FileSystem) (p : String) (mode : Nat) : FileSystem :=
  { fs with
    files := fun x =>
      if x = p then
        match fs.files p with
        | some cm => some (cm.1, mode)
        | none => none
      else fs.files x }

/-- The wizard's `cfg` dict, with `Option` fields for possibly-absent keys
(`cfg["k"]` on an absent key raises `KeyError`). -/
structure ConfigDict where
  team_id : Option String
  key_id : Option String
  private_key_path : Option String
  storefront : Option String
  music_user_token : Option String
  deriving DecidableEq

/-- Rendering of one config field for the written document. -/
def encodeField (name : String) (v : Option String) : String :=
  match v with
  | none => ""
  | some s => "  \"" ++ name ++ "\": \"" ++ s ++ "\",\n"

/-- The document written by `json.dump(cfg, f, indent=2)` (setup.py line
192).  The claims under verification treat the written bytes as opaque, so
the rendering is a plain field listing. -/
def encodeConfig (cfg : ConfigDict) : String :=
  "\x7b\n" ++ encodeField "team_id" cfg.team_id ++
    encodeField "key_id" cfg.key_id ++
    encodeField "private_key_path" cfg.private_key_path ++
    encodeField "storefront" cfg.storefront ++
    encodeField "music_user_token" cfg.music_user_token ++ "\x7d"

/-- `_save_config(cfg)` (setup.py lines 189-193): create `CONFIG_DIR` with
parents if absent, write the serialized config to `CONFIG_PATH`, then
`CONFIG_PATH.chmod(0o600)`. -/
def save_config (fs : FileSystem) (content : String) : FileSystem :=
  chmodFile (writeFile (mkdirParents fs CONFIG_DIR) CONFIG_PATH content)
    CONFIG_PATH 0o600

/-- Failures of `_generate_developer_token`: a missing dict key
(`KeyError`) or an unreadable key file (`OSError` from `open`). -/
inductive SetupError where
  | keyError (field : String)
  | fileNotFound (path : String)
  deriving DecidableEq

/-- The JWT produced by `jwt.encode` in `_generate_developer_token`,
recorded as its header `kid` and payload `iss`/`iat`/`exp` fields; the
ES256 signature over them is treated as opaque and not modelled. -/
structure DeveloperToken where
  kid : String
  iss : String
  iat : Nat
  exp : Nat
  deriving DecidableEq

/-- `_generate_developer_token(cfg)` (setup.py lines 202-212), with the
file system and the clock passed explicitly.  Following the evaluation
order of the Python code: read `cfg["private_key_path"]`, open and read the
key file, then build the token with payload
`{"iss": cfg["team_id"], "iat": now, "exp": now + 15_777_000}` and header
`{"kid": cfg["key_id"]}`.  An absent dict key or an unreadable file aborts
with the corresponding error and no token is produced. -/
def generate_developer_token (fs : FileSystem) (cfg : ConfigDict) (now : Nat) :
    Except SetupError DeveloperToken :=
  match cfg.private_key_path with
  | none => .error (.keyError "private_key_path")
  | some keyPath =>
    match fs.files keyPath with
    | none => .error (.fileNotFound keyPath)
    | some _privateKey =>
      match cfg.team_id with
      | none => .error (.keyError "team_id")
      | some iss =>
        match cfg.key_id with
        | none => .error (.keyError "key_id")
        | some kid =>
          .ok { kid := kid, iss := iss, iat := now, exp := now + 15777000 }

/-- The tail of `main` after the browser wait (setup.py lines 268-277):
`granted = _token_event.wait(timeout=300)`; when the wait timed out or the
token buffer is empty, the run exits with code 1 and the file system is
untouched; otherwise `cfg["music_user_token"]` is set to
`_received_token[0]` and the config is saved (exit code 0).  The result is
the process exit code together with the final file-system state. -/
def finishSetup (fs : FileSystem) (cfg : ConfigDict) (granted : Bool)
    (st : SessionState) : Nat × FileSystem :=
  if granted = false ∨ st.receivedToken.isEmpty = true then
    (1, fs)
  else
    let cfg' := { cfg with music_user_token := some st.receivedToken.headI }
    (0, save_config fs (encodeConfig cfg'))

/-! ### Tool layer — `server.py` -/

/-- `min(max(1, limit), 25)` as sent by `search_catalog` (server.py line
112). -/
def search_catalog_limit (limit : Int) : Int := min (max 1 limit) 25

/-- `min(max(1, limit), 25)` as sent by `search_library` (server.py line
168). -/
def search_library_limit (limit : Int) : Int := min (max 1 limit) 25

/-- `min(max(1, limit), 100)` as sent by `get_library_songs` (server.py
line 214). -/
def get_library_songs_limit (limit : Int) : Int := min (max 1 limit) 100

/-- `min(max(1, limit), 100)` as sent by `get_library_albums` (server.py
line 244). -/
def get_library_albums_limit (limit : Int) : Int := min (max 1 limit) 100

/-- `min(max(1, limit), 100)` as sent by `get_library_artists` (server.py
line 274). -/
def get_library_artists_limit (limit : Int) : Int := min (max 1 limit) 100

/-- `min(max(1, limit), 100)` as sent by `get_library_playlists` (server.py
line 302). -/
def get_library_playlists_limit (limit : Int) : Int := min (max 1 limit) 100

/-- `min(max(1, limit), 100)` as sent by `get_playlist_tracks` (server.py
line 332). -/
def get_playlist_tracks_limit (limit : Int) : Int := min (max 1 limit) 100

/-- `min(max(1, limit), 50)` as sent by `get_recently_played` (server.py
line 428). -/
def get_recently_played_limit (limit : Int) : Int := min (max 1 limit) 50

/-- `min(max(1, limit), 10)` as sent by `get_recommendations` (server.py
line 475). -/
def get_recommendations_limit (limit : Int) : Int := min (max 1 limit) 10

/-- An outbound API request issued by a tool; a POST body
`{"data": [{"id": tid, "type": track_type}, ...]}` is recorded as the list
of its `(id, type)` pairs. -/
inductive ApiRequest where
  | post (path : String) (body : List (String × String))
  deriving DecidableEq

/-- `add_tracks_to_playlist` (server.py lines 383-407), with the outbound
request trace made explicit: with an empty `track_ids` the tool answers the
error message and issues no request at all; otherwise it POSTs the track
list to the playlist endpoint and reports success. -/
def add_tracks_to_playlist (playlist_id : String) (track_ids : List String)
    (track_type : String) : String × List ApiRequest :=
  if track_ids.isEmpty = true then
    ("❌ No track IDs provided.", [])
  else
    ("✅ Added " ++ toString track_ids.length ++ " track(s) to playlist [" ++
        playlist_id ++ "].\n   Track IDs: " ++ String.intercalate ", " track_ids,
     [ApiRequest.post ("/me/library/playlists/" ++ playlist_id ++ "/tracks")
        (track_ids.map (fun tid => (tid, track_type)))])

/-! ### Concrete fixtures used to instantiate theorems -/

/-- A file system holding a readable P-256 key file at `/tmp/key.p8` and
nothing else. -/
def fixtureFS : FileSystem :=
  { dirs := fun _ => false,
    files := fun p =>
      if p = "/tmp/key.p8" then some ("PRIVATE-KEY-BYTES", 0o600) else none }

/-- A fully populated credential record. -/
def fixtureConfig : ConfigDict :=
  { team_id := some "T1", key_id := some "K1",
    private_key_path := some "/tmp/key.p8", storefront := some "it",
    music_user_token := none }

/-- A credential record with every key absent. -/
def emptyConfig : ConfigDict :=
  { team_id := none, key_id := none, private_key_path := none,
    storefront := none, music_user_token := none }

/-! ## Theorems -/

/-- `urlparse("/").path` is `/`. -/
theorem urlparsePath_root : urlparsePath "/" = "/" := rfl

/-- `urlparse("/save_token").path` is `/save_token`. -/
theorem urlparsePath_saveToken : urlparsePath "/save_token" = "/save_token" := rfl

/-- Request-count bound for the loop of `get_all_pages`, by induction on an
upper bound `d` for the remaining item budget `max_items - results.length`:
when every page is full or empty, the loop from a state with `r` accumulated
items issues at most `⌈(max_items - r) / PAGE_SIZE⌉ + 1` further requests. -/
theorem getAllPagesLoop_requests_le {α : Type} (server : Nat → Nat → Page α)
    (max_items : Nat) (H : HonestPageSizes server) :
    ∀ d results offset, max_items - results.length ≤ d →
      (getAllPagesLoop server max_items results offset).2 ≤
        (max_items - results.length + (PAGE_SIZE - 1)) / PAGE_SIZE + 1 := by
  intro d
  induction d with
  | zero =>
    intro results offset hle
    rw [getAllPagesLoop]
    have hnl : ¬ results.length < max_items := by omega
    simp [hnl]
  | succ n ih =>
    intro results offset hle
    rw [getAllPagesLoop]
    by_cases hcond : results.length < max_items
    · by_cases hbrk : (server PAGE_SIZE offset).hasNext = false ∨
        (server PAGE_SIZE offset).data.isEmpty = true
      · simp only [dif_pos hcond, if_pos hbrk]
        exact Nat.le_add_left 1 _
      · have hlen : (server PAGE_SIZE offset).data.length = PAGE_SIZE := by
          rcases H offset with h1 | h1
          · exact h1
          · exact absurd (Or.inr (by simp [h1])) hbrk
        have hrec := ih (results ++ (server PAGE_SIZE offset).data)
          (offset + (server PAGE_SIZE offset).data.length)
          (by simp only [List.length_append, hlen, PAGE_SIZE] at *; omega)
        simp only [dif_pos hcond, if_neg hbrk]
        simp only [List.length_append, hlen] at hrec ⊢
        simp only [PAGE_SIZE] at hrec ⊢
        omega
    · simp [hcond]

/-- C1: For every server behaviour and every `max_items = M ≥ 0`,
`get_all_pages` returns a list of length at most `M`: the accumulated item
sequence handed back to the caller never exceeds the caller-specified cap,
because the final accumulator is truncated by `results[:max_items]`. -/
theorem get_all_pages_length_le {α : Type} (server : Nat → Nat → Page α)
    (max_items : Nat) : (get_all_pages server max_items).length ≤ max_items := by
  unfold get_all_pages
  simp

/-- C5 counterexample: the `⌈M / 100⌉ + 1` request bound does NOT hold for
every server that always reports a continuation indicator and eventually
returns only empty pages.  `onesServer` satisfies that proviso, yet at
`max_items = 3` the loop issues 3 requests — one per one-item page — while
the claimed bound is `⌈3 / 100⌉ + 1 = 2`. -/
theorem request_bound_fails_on_short_pages :
    AlwaysNextEventuallyEmpty onesServer ∧
    ¬ (get_all_pages_requests onesServer 3 ≤
        (3 + (PAGE_SIZE - 1)) / PAGE_SIZE + 1) := by
  have hx : "x".isEmpty = false := rfl
  refine ⟨⟨?_, ⟨10, ?_⟩⟩, ?_⟩
  · intro limit offset
    by_cases h : offset < 10 <;> simp [onesServer, Page.hasNext, h, hx]
  · intro offset hoff
    simp [onesServer, Nat.not_lt.mpr hoff]
  · have s3 : getAllPagesLoop onesServer 3 [0, 0, 0] 3 = ([0, 0, 0], 0) := by
      rw [getAllPagesLoop]
      simp
    have s2 : getAllPagesLoop onesServer 3 [0, 0] 2 = ([0, 0, 0], 1) := by
      rw [getAllPagesLoop]
      simp [onesServer, Page.hasNext, hx, s3]
    have s1 : getAllPagesLoop onesServer 3 [0] 1 = ([0, 0, 0], 2) := by
      rw [getAllPagesLoop]
      simp [onesServer, Page.hasNext, hx, s2]
    have s0 : getAllPagesLoop onesServer 3 [] 0 = ([0, 0, 0], 3) := by
      rw [getAllPagesLoop]
      simp [onesServer, Page.hasNext, hx, s1]
    have hreq : get_all_pages_requests onesServer 3 = 3 := by
      simp [get_all_pages_requests, s0]
    rw [hreq]
    norm_num [PAGE_SIZE]

/-- C5 (amended): `get_all_pages` is total (its Lean model is a terminating
function for every server oracle), and for every `max_items = M ≥ 0` it
issues at most `⌈M / PAGE_SIZE⌉ + 1 = ⌈M / 100⌉ + 1` requests whenever each
response honours the fixed requested page size, i.e. carries either a full
page of 100 items or an empty page — in particular when the server keeps
reporting a continuation indicator on every page but eventually returns
only empty pages, the loop stops at the first empty page. -/
theorem get_all_pages_request_bound {α : Type} (server : Nat → Nat → Page α)
    (max_items : Nat) (H : HonestPageSizes server) :
    get_all_pages_requests server max_items ≤
      (max_items + (PAGE_SIZE - 1)) / PAGE_SIZE + 1 := by
  have h := getAllPagesLoop_requests_le server max_items H max_items [] 0
    (by simp)
  simpa [get_all_pages_requests] using h

/-- Witness for C5 at `max_items = 250` on a server that always returns
full pages with a continuation indicator: the page-size hypothesis holds
and the request bound follows. -/
theorem get_all_pages_request_bound_witness :
    HonestPageSizes constFullServer ∧
      get_all_pages_requests constFullServer 250 ≤
        (250 + (PAGE_SIZE - 1)) / PAGE_SIZE + 1 := by
  have hH : HonestPageSizes constFullServer := by
    intro offset
    left
    simp [constFullServer]
  exact ⟨hH, get_all_pages_request_bound constFullServer 250 hH⟩

/-- C2 counterexample: the shared token buffer is NOT written at most once.
In a session receiving two `POST /save_token` requests (first with token
`"a"`, then `"b"`), the `_received_token` list ends up holding two entries:
the handler appends on every such POST, so the buffer is written twice. -/
theorem second_post_writes_buffer_again :
    ((handlePost (handlePost initialSession "/save_token" "a").1
        "/save_token" "b").1.receivedToken = ["a", "b"]) ∧
    ¬ ((handlePost (handlePost initialSession "/save_token" "a").1
        "/save_token" "b").1.receivedToken.length ≤ 1) := by
  constructor
  · rfl
  · decide

/-- C2 amended: each `POST /save_token` appends one entry to the shared
`_received_token` buffer — so after a first successful POST a second one
writes the buffer again (two entries in total) — but the session outcome
reads only `_received_token[0]`, hence a second POST after a first
successful one has no observable effect on the session's outcome: the
outcome is `tokenReceived s1` with or without the second POST. -/
theorem second_post_outcome_unchanged (s1 s2 : String) :
    ((handlePost (handlePost initialSession "/save_token" s1).1
        "/save_token" s2).1.receivedToken = [s1, s2]) ∧
    sessionOutcome (handlePost initialSession "/save_token" s1).1.tokenEvent
        (handlePost initialSession "/save_token" s1).1 =
      SessionOutcome.tokenReceived s1 ∧
    sessionOutcome
        (handlePost (handlePost initialSession "/save_token" s1).1
          "/save_token" s2).1.tokenEvent
        (handlePost (handlePost initialSession "/save_token" s1).1
          "/save_token" s2).1 =
      SessionOutcome.tokenReceived s1 := by
  simp [handlePost, urlparsePath_saveToken, sessionOutcome, initialSession,
    List.headI]

/-- C3: routing of the handshake server, over the request targets on which
`urlparse` returns (`ParsedWithoutError`).  `GET` of any target whose
parsed path is `/` answers 200 with the rendered HTML page, which contains
the developer token verbatim; `POST` of any target whose parsed path is
`/save_token`, with JSON body `{"token": s}`, appends `s` to the token
buffer, raises the completion signal, and answers 200 with body
`{"ok":true}`; a `GET` or `POST` of any target with any other parsed path
answers 404 (and, for `POST`, leaves the session state unchanged). -/
theorem handler_routes (tok r p w q s : String) (st : SessionState)
    (hrv : ParsedWithoutError r) (hr : urlparsePath r = "/")
    (hpv : ParsedWithoutError p) (hp : urlparsePath p ≠ "/")
    (hwv : ParsedWithoutError w) (hw : urlparsePath w = "/save_token")
    (hqv : ParsedWithoutError q) (hq : urlparsePath q ≠ "/save_token") :
    handleGet (renderAuthPage tok) r =
      { status := 200, contentType := some "text/html; charset=utf-8",
        body := renderAuthPage tok } ∧
    (∃ a b, renderAuthPage tok = a ++ tok ++ b) ∧
    handleGet (renderAuthPage tok) p =
      { status := 404, contentType := none, body := "" } ∧
    handlePost st w s =
      ({ receivedToken := st.receivedToken ++ [s], tokenEvent := true },
       { status := 200, contentType := some "application/json",
         body := "\x7b\"ok\":true\x7d" }) ∧
    handlePost st q s =
      (st, { status := 404, contentType := none, body := "" }) := by
  refine ⟨?_, ⟨HTML_PREFIX, HTML_SUFFIX, rfl⟩, ?_, ?_, ?_⟩
  · simp [handleGet, hr]
  · simp [handleGet, hp]
  · simp [handlePost, hw]
  · simp [handlePost, hq]

/-- Witness for C3, at the developer token `"DEV_TOKEN"`, the posted token
`"usertok"`, the initial session, and the parse-valid targets `/` (root),
`/index.html` (neither route), `/save_token;x` (parses to `/save_token`
after params stripping), and `/token` (neither route). -/
theorem handler_routes_witness :
    (ParsedWithoutError "/" ∧ urlparsePath "/" = "/") ∧
    (ParsedWithoutError "/index.html" ∧ urlparsePath "/index.html" ≠ "/") ∧
    (ParsedWithoutError "/save_token;x" ∧
      urlparsePath "/save_token;x" = "/save_token") ∧
    (ParsedWithoutError "/token" ∧ urlparsePath "/token" ≠ "/save_token") ∧
    (handleGet (renderAuthPage "DEV_TOKEN") "/" =
      { status := 200, contentType := some "text/html; charset=utf-8",
        body := renderAuthPage "DEV_TOKEN" } ∧
    (∃ a b, renderAuthPage "DEV_TOKEN" = a ++ "DEV_TOKEN" ++ b) ∧
    handleGet (renderAuthPage "DEV_TOKEN") "/index.html" =
      { status := 404, contentType := none, body := "" } ∧
    handlePost initialSession "/save_token;x" "usertok" =
      ({ receivedToken := initialSession.receivedToken ++ ["usertok"],
         tokenEvent := true },
       { status := 200, contentType := some "application/json",
         body := "\x7b\"ok\":true\x7d" }) ∧
    handlePost initialSession "/token" "usertok" =
      (initialSession, { status := 404, contentType := none, body := "" })) :=
  ⟨⟨by decide, by decide⟩, ⟨by decide, by decide⟩, ⟨by decide, by decide⟩,
   ⟨by decide, by decide⟩,
   handler_routes "DEV_TOKEN" "/" "/index.html" "/save_token;x" "/token"
     "usertok" initialSession (by decide) (by decide) (by decide) (by decide)
     (by decide) (by decide) (by decide) (by decide)⟩

/-- C4: if the handshake session times out (the wait on the completion
signal returns `granted = false` at the 300-second deadline), the setup run
exits with the non-zero code 1 and the file system — in particular the
persisted credential file — is left untouched; moreover, whenever the run
does not exit non-zero, the signal was granted and a token was actually
received into the buffer, i.e. the save step is reached only with a
received token. -/
theorem timeout_exits_nonzero_without_save (fs : FileSystem)
    (cfg : ConfigDict) (st : SessionState) :
    finishSetup fs cfg false st = (1, fs) ∧
    (∀ granted, (finishSetup fs cfg granted st).1 = 0 →
      granted = true ∧ st.receivedToken ≠ []) := by
  constructor
  · simp [finishSetup]
  · intro granted h
    by_cases hg : granted = false
    · subst hg
      simp [finishSetup] at h
    · have hg' : granted = true := by
        cases granted
        · exact absurd rfl hg
        · rfl
      refine ⟨hg', ?_⟩
      intro hnil
      simp [finishSetup, hg', hnil] at h

/-- Witness for C4 at a session state with the signal raised and one
buffered token: the run reaches the save step with exit code 0, and indeed
the signal was granted and the buffer is non-empty. -/
theorem timeout_exits_nonzero_without_save_witness :
    (finishSetup fixtureFS fixtureConfig true
        { receivedToken := ["tok"], tokenEvent := true }).1 = 0 ∧
    (true = true ∧
      ({ receivedToken := ["tok"], tokenEvent := true } :
        SessionState).receivedToken ≠ []) :=
  ⟨rfl,
   (timeout_exits_nonzero_without_save fixtureFS fixtureConfig
       { receivedToken := ["tok"], tokenEvent := true }).2 true rfl⟩

/-- C6: any token produced by `_generate_developer_token` — for any file
system, credential record, and issued-at clock reading — carries payload
expiry exactly `issued-at + 15_777_000` seconds, issued-at equal to the
clock reading, issuer equal to the stored team identifier, and header key
identifier equal to the stored key identifier. -/
theorem developer_token_fields (fs : FileSystem) (cfg : ConfigDict)
    (now : Nat) (t : DeveloperToken)
    (h : generate_developer_token fs cfg now = Except.ok t) :
    t.exp = t.iat + 15777000 ∧ t.iat = now ∧
    cfg.team_id = some t.iss ∧ cfg.key_id = some t.kid := by
  cases hkp : cfg.private_key_path with
  | none => simp [generate_developer_token, hkp] at h
  | some kp =>
    cases hf : fs.files kp with
    | none => simp [generate_developer_token, hkp, hf] at h
    | some key =>
      cases ht : cfg.team_id with
      | none => simp [generate_developer_token, hkp, hf, ht] at h
      | some iss =>
        cases hk : cfg.key_id with
        | none => simp [generate_developer_token, hkp, hf, ht, hk] at h
        | some kid =>
          simp only [generate_developer_token, hkp, hf, ht, hk,
            Except.ok.injEq] at h
          subst h
          exact ⟨rfl, rfl, rfl, rfl⟩

/-- Witness for C6 at a populated record, a readable key file, and
issued-at 1000: the signer returns the token whose fields satisfy the
stated equalities. -/
theorem developer_token_fields_witness :
    generate_developer_token fixtureFS fixtureConfig 1000 =
      Except.ok { kid := "K1", iss := "T1", iat := 1000, exp := 1000 + 15777000 } ∧
    (({ kid := "K1", iss := "T1", iat := 1000, exp := 1000 + 15777000 } :
        DeveloperToken).exp =
      ({ kid := "K1", iss := "T1", iat := 1000, exp := 1000 + 15777000 } :
        DeveloperToken).iat + 15777000 ∧
     ({ kid := "K1", iss := "T1", iat := 1000, exp := 1000 + 15777000 } :
        DeveloperToken).iat = 1000 ∧
     fixtureConfig.team_id = some "T1" ∧ fixtureConfig.key_id = some "K1") :=
  ⟨rfl, developer_token_fields fixtureFS fixtureConfig 1000 _ rfl⟩

/-- C7: for any credential record missing the team identifier, the
signing-key identifier, or the private-key path, the signer
`_generate_developer_token` fails deterministically — for every file system
and clock it returns an error — and produces no token. -/
theorem signer_fails_on_missing_field (cfg : ConfigDict)
    (hmiss : cfg.team_id = none ∨ cfg.key_id = none ∨
      cfg.private_key_path = none)
    (fs : FileSystem) (now : Nat) :
    (∃ e, generate_developer_token fs cfg now = Except.error e) ∧
    (∀ t, generate_developer_token fs cfg now ≠ Except.ok t) := by
  have hmain : ∃ e, generate_developer_token fs cfg now = Except.error e := by
    rcases hmiss with h | h | h
    · rcases hkp : cfg.private_key_path with _ | kp
      · exact ⟨.keyError "private_key_path",
          by simp [generate_developer_token, hkp]⟩
      · rcases hf : fs.files kp with _ | key
        · exact ⟨.fileNotFound kp,
            by simp [generate_developer_token, hkp, hf]⟩
        · exact ⟨.keyError "team_id",
            by simp [generate_developer_token, hkp, hf, h]⟩
    · rcases hkp : cfg.private_key_path with _ | kp
      · exact ⟨.keyError "private_key_path",
          by simp [generate_developer_token, hkp]⟩
      · rcases hf : fs.files kp with _ | key
        · exact ⟨.fileNotFound kp,
            by simp [generate_developer_token, hkp, hf]⟩
        · rcases ht : cfg.team_id with _ | iss
          · exact ⟨.keyError "team_id",
              by simp [generate_developer_token, hkp, hf, ht]⟩
          · exact ⟨.keyError "key_id",
              by simp [generate_developer_token, hkp, hf, ht, h]⟩
    · exact ⟨.keyError "private_key_path",
        by simp [generate_developer_token, h]⟩
  refine ⟨hmain, ?_⟩
  rcases hmain with ⟨e, he⟩
  intro t hok
  rw [he] at hok
  simp at hok

/-- Witness for C7 at the record with every key absent: the missingness
hypothesis holds and the signer answers an error. -/
theorem signer_fails_on_missing_field_witness :
    emptyConfig.team_id = none ∧
    (∃ e, generate_developer_token fixtureFS emptyConfig 0 = Except.error e) :=
  ⟨rfl,
   (signer_fails_on_missing_field emptyConfig (Or.inl rfl) fixtureFS 0).1⟩

/-- C8: after every `_save_config`, the backing file exists at
`CONFIG_PATH` with exactly the written content and permission mode
owner-read/write only (`0o600`) — whatever the file's prior existence,
content, or permission mode — and the containing directory `CONFIG_DIR`
exists, created if it was absent. -/
theorem save_config_mode_600 (fs : FileSystem) (content : String) :
    (save_config fs content).files CONFIG_PATH = some (content, 0o600) ∧
    (save_config fs content).dirs CONFIG_DIR = true := by
  constructor
  · simp [save_config, chmodFile, writeFile, mkdirParents]
  · simp [save_config, chmodFile, writeFile, mkdirParents]

/-- Bounds of the Python clamp `min(max(1, l), B)` when `1 ≤ B`. -/
theorem clamp_bounds (l B : Int) (hB : 1 ≤ B) :
    1 ≤ min (max 1 l) B ∧ min (max 1 l) B ≤ B :=
  ⟨le_min (le_max_left 1 l) hB, min_le_right _ _⟩

/-- C9: for every tool call and every caller-supplied integer limit, the
`limit` query parameter actually sent equals `min(max(1, limit), B)` for
that tool's documented bound `B` — 25 for catalog and library search, 100
for the library listing tools (songs, albums, artists, playlists, playlist
tracks), 50 for recently played, 10 for recommendations — and therefore
always lies within `[1, B]`. -/
theorem tool_limits_within_bounds (l : Int) :
    (search_catalog_limit l = min (max 1 l) 25 ∧
      1 ≤ search_catalog_limit l ∧ search_catalog_limit l ≤ 25) ∧
    (search_library_limit l = min (max 1 l) 25 ∧
      1 ≤ search_library_limit l ∧ search_library_limit l ≤ 25) ∧
    (get_library_songs_limit l = min (max 1 l) 100 ∧
      1 ≤ get_library_songs_limit l ∧ get_library_songs_limit l ≤ 100) ∧
    (get_library_albums_limit l = min (max 1 l) 100 ∧
      1 ≤ get_library_albums_limit l ∧ get_library_albums_limit l ≤ 100) ∧
    (get_library_artists_limit l = min (max 1 l) 100 ∧
      1 ≤ get_library_artists_limit l ∧ get_library_artists_limit l ≤ 100) ∧
    (get_library_playlists_limit l = min (max 1 l) 100 ∧
      1 ≤ get_library_playlists_limit l ∧ get_library_playlists_limit l ≤ 100) ∧
    (get_playlist_tracks_limit l = min (max 1 l) 100 ∧
      1 ≤ get_playlist_tracks_limit l ∧ get_playlist_tracks_limit l ≤ 100) ∧
    (get_recently_played_limit l = min (max 1 l) 50 ∧
      1 ≤ get_recently_played_limit l ∧ get_recently_played_limit l ≤ 50) ∧
    (get_recommendations_limit l = min (max 1 l) 10 ∧
      1 ≤ get_recommendations_limit l ∧ get_recommendations_limit l ≤ 10) :=
  ⟨⟨rfl, (clamp_bounds l 25 (by norm_num)).1, (clamp_bounds l 25 (by norm_num)).2⟩,
   ⟨rfl, (clamp_bounds l 25 (by norm_num)).1, (clamp_bounds l 25 (by norm_num)).2⟩,
   ⟨rfl, (clamp_bounds l 100 (by norm_num)).1, (clamp_bounds l 100 (by norm_num)).2⟩,
   ⟨rfl, (clamp_bounds l 100 (by norm_num)).1, (clamp_bounds l 100 (by norm_num)).2⟩,
   ⟨rfl, (clamp_bounds l 100 (by norm_num)).1, (clamp_bounds l 100 (by norm_num)).2⟩,
   ⟨rfl, (clamp_bounds l 100 (by norm_num)).1, (clamp_bounds l 100 (by norm_num)).2⟩,
   ⟨rfl, (clamp_bounds l 100 (by norm_num)).1, (clamp_bounds l 100 (by norm_num)).2⟩,
   ⟨rfl, (clamp_bounds l 50 (by norm_num)).1, (clamp_bounds l 50 (by norm_num)).2⟩,
   ⟨rfl, (clamp_bounds l 10 (by norm_num)).1, (clamp_bounds l 10 (by norm_num)).2⟩⟩

/-- C10: for every playlist id and track type, calling
`add_tracks_to_playlist` with an empty `track_ids` list returns the error
message `❌ No track IDs provided.` and issues no API request at all: the
outbound request trace is empty, so no POST reaches the remote API. -/
theorem add_tracks_empty_no_request (playlist_id track_type : String)
    (track_ids : List String) (h : track_ids = []) :
    add_tracks_to_playlist playlist_id track_ids track_type =
      ("❌ No track IDs provided.", []) := by
  subst h
  rfl

/-- Witness for C10 at a concrete playlist id and the empty track list. -/
theorem add_tracks_empty_no_request_witness :
    ([] : List String) = [] ∧
    add_tracks_to_playlist "p.123" [] "library-songs" =
      ("❌ No track IDs provided.", []) :=
  ⟨rfl, add_tracks_empty_no_request "p.123" "library-songs" [] rfl⟩

end AppleMusic


